import Mathlib

/-!
Shallow embedding of the Tests Hub service worker (src/sw.js) and proofs
about its caching engine.

Modelling conventions:
* JS `fetch` is a function `network : String → Option Response`; `none`
  models a rejected fetch (network failure), `some r` a settled HTTP
  response of any status (HTTP error statuses do not reject in JS).
* A cache namespace is its list of entries in insertion order; the Cache
  API's `put` runs a batch operation that deletes the matching entries and
  appends the new one at the end, and `keys()` returns keys in that order.
* The `date` response header is modelled by its JS parse: `none` means the
  header is absent (`headers.get` returns `null`, and `new Date(null)` is
  the Unix epoch), `some none` means present but unparseable (`new Date`
  gives an Invalid Date, whose NaN makes every `>` comparison false), and
  `some (some t)` means it parses to epoch-milliseconds `t`.
* `caches.match` searches the caches in creation order: the static
  namespace (created at install) before the dynamic one.
-/

/-- Version string from the file header comment of sw.js (`Version: v2.1.7`),
the tag embedded in all three namespace names. -/
def SW_VERSION : String := "v2.1.7"

/-- `const CACHE_NAME = 'tests-hub-v2.1.7'` (the umbrella namespace name). -/
def CACHE_NAME : String := "tests-hub-v2.1.7"

/-- `const STATIC_CACHE_NAME = 'tests-hub-static-v2.1.7'`. -/
def STATIC_CACHE_NAME : String := "tests-hub-static-v2.1.7"

/-- `const DYNAMIC_CACHE_NAME = 'tests-hub-dynamic-v2.1.7'`. -/
def DYNAMIC_CACHE_NAME : String := "tests-hub-dynamic-v2.1.7"

/-- `const STATIC_ASSETS = [...]`: the install-time asset manifest. -/
def STATIC_ASSETS : List String :=
  ["/", "/index.html", "/Tests_7th.html", "/Tests_8th.html", "/Tests_9th.html",
   "/Tests_1st_secondary.html", "/Tests_2nd_secondary.html",
   "/Tests_3rd_secondary.html", "/Tests_4th_secondary.html",
   "/manifest.json", "/sw.js"]

/-- `const MAX_AGE_MS = 7 * 24 * 60 * 60 * 1000` (7 days in milliseconds). -/
def MAX_AGE_MS : Int := 7 * 24 * 60 * 60 * 1000

/-- `const NOTIFICATION_ICON = '/assets/icons/icon-96x96.png'`. -/
def NOTIFICATION_ICON : String := "/assets/icons/icon-96x96.png"

/-- `const SYNC_QUEUE_NAME = 'sync-queue'`. -/
def SYNC_QUEUE_NAME : String := "sync-queue"

/-- An HTTP response as the worker observes it: status, statusText, the
content type header, the `date` header (by its JS parse, see the file
comment) and the body text. -/
structure Response where
  status : Nat
  statusText : String
  contentType : Option String
  dateHdr : Option (Option Int)
  body : String
deriving DecidableEq, Repr

/-- JS `Response.ok`: status in the range 200..299. -/
def responseOk (r : Response) : Bool :=
  decide (200 ≤ r.status ∧ r.status ≤ 299)

/-- A request as the fetch handler inspects it: method, url, and the
`Accept` header (`none` when the header is absent). -/
structure Request where
  method : String
  url : String
  accept : Option String
deriving DecidableEq, Repr

/-- Character-list version of JS `String.prototype.startsWith` (first the
string, then the pattern). -/
def beginsWith : List Char → List Char → Bool
  | _, [] => true
  | [], _ :: _ => false
  | a :: as, p :: ps => a == p && beginsWith as ps

/-- Character-list version of JS `String.prototype.includes`. -/
def containsSeq : List Char → List Char → Bool
  | [], pat => beginsWith [] pat
  | a :: rest, pat => beginsWith (a :: rest) pat || containsSeq rest pat

/-- JS `s.includes(pat)`. -/
def jsIncludes (s pat : String) : Bool := containsSeq s.toList pat.toList

/-- JS `s.startsWith(pat)`. -/
def jsStartsWith (s pat : String) : Bool := beginsWith s.toList pat.toList

/-- `request.headers.get('Accept')?.includes('text/html')`: an absent header
gives `undefined`, which is falsy. -/
def acceptsHtml (req : Request) : Bool :=
  match req.accept with
  | none => false
  | some a => jsIncludes a "text/html"

/-- The request classes of the fetch listener: bypassed (non-GET or
chrome-extension scheme), api (`/api/` in the url), document (Accept
includes text/html), asset (everything else). -/
inductive ReqClass where
  | bypass
  | api
  | document
  | asset
deriving DecidableEq, Repr

/-- The classification performed by the fetch listener (sw.js lines 86-109),
in source order. -/
def classifyRequest (req : Request) : ReqClass :=
  if req.method ≠ "GET" then ReqClass.bypass
  else if jsStartsWith req.url "chrome-extension://" then ReqClass.bypass
  else if jsIncludes req.url "/api/" then ReqClass.api
  else if acceptsHtml req then ReqClass.document
  else ReqClass.asset

/-- A cache namespace: entries keyed by url, in insertion order. -/
abbrev CacheNS := List (String × Response)

/-- `cache.put(key, r)`: the batch operation deletes entries matching the
key and appends the new entry at the end. -/
def nsPut (k : String) (r : Response) (c : CacheNS) : CacheNS :=
  c.filter (fun p => p.1 != k) ++ [(k, r)]

/-- `cache.delete(key)`. -/
def nsDelete (k : String) (c : CacheNS) : CacheNS :=
  c.filter (fun p => p.1 != k)

/-- `cache.match(key)`: the first entry whose key matches. -/
def nsLookup (k : String) : CacheNS → Option Response
  | [] => none
  | p :: rest => if p.1 = k then some p.2 else nsLookup k rest

/-- The worker-visible state: the static and dynamic namespaces, whether
`navigator.storage.estimate` is available, and the estimate it reports. -/
structure SWState where
  staticNS : CacheNS
  dynamicNS : CacheNS
  hasEstimate : Bool
  storageUsage : Nat
  storageQuota : Nat
deriving DecidableEq, Repr

/-- `caches.match(url)`: search the namespaces in creation order, the static
namespace first. -/
def matchCaches (url : String) (st : SWState) : Option Response :=
  match nsLookup url st.staticNS with
  | some r => some r
  | none => nsLookup url st.dynamicNS

/-- The quota check of `cacheResponse`: `estimate.usage / estimate.quota >
0.9`, available only when `navigator.storage.estimate` exists. Rendered
over naturals as `usage * 10 > quota * 9`. -/
def quotaPressure (st : SWState) : Bool :=
  st.hasEstimate && decide (st.storageQuota * 9 < st.storageUsage * 10)

/-- `cacheResponse(request, response)` (sw.js lines 199-215): open the
dynamic namespace; under quota pressure delete the first key reported by
`cache.keys()` (if any); then put the new entry. -/
def cacheResponse (k : String) (r : Response) (st : SWState) : SWState :=
  let dyn :=
    if quotaPressure st then
      match st.dynamicNS with
      | [] => st.dynamicNS
      | p :: _ => nsDelete p.1 st.dynamicNS
    else st.dynamicNS
  { st with dynamicNS := nsPut k r dyn }

/-- `fetchAndCache(request)` (sw.js lines 185-194): fetch; cache through
`cacheResponse` only when the status is exactly 200; a rejected fetch
(`none`) propagates the exception (first component `none`). -/
def fetchAndCache (url : String) (network : String → Option Response) (st : SWState) :
    Option Response × SWState :=
  match network url with
  | none => (none, st)
  | some r => if r.status = 200 then (some r, cacheResponse url r st) else (some r, st)

/-- The staleness test of `cacheFirstStrategy`:
`new Date() - new Date(headers.get('date')) > MAX_AGE_MS`. An absent header
gives `new Date(null)`, the epoch; an unparseable one gives NaN, and every
comparison with NaN is false. -/
def isStaleDate (now : Int) : Option (Option Int) → Bool
  | none => decide (MAX_AGE_MS < now - 0)
  | some none => false
  | some (some t) => decide (MAX_AGE_MS < now - t)

/-- The offline HTML page synthesized by `offlineResponse` for requests
whose Accept header includes text/html (sw.js lines 222-248). -/
def OFFLINE_HTML_BODY : String :=
  "\n<!DOCTYPE html>\n<html>\n<head>\n<title>Tests Hub - Offline</title>\n<style>\nbody \x7b font-family: Arial, sans-serif; padding: 20px; text-align: center; \x7d\n.container \x7b max-width: 500px; margin: 100px auto; \x7d\nh1 \x7b color: #e74c3c; \x7d\nbutton \x7b padding: 10px 20px; background: #3498db; color: white; border: none; border-radius: 5px; cursor: pointer; \x7d\n</style>\n</head>\n<body>\n<div class=\"container\">\n<h1>ðŸ“¶ You\x27re Offline</h1>\n<p>Tests Hub is currently unavailable offline. Please check your internet connection.</p>\n<p>Cached content is available for previously visited pages.</p>\n<button onclick=\"location.reload()\">Retry</button>\n</div>\n</body>\n</html>\n"

/-- `offlineResponse(request)` (sw.js lines 220-256): the self-contained
HTML page (status defaults to 200) when the Accept header includes
text/html, otherwise a plain-text 503. -/
def offlineResponse (req : Request) : Response :=
  if acceptsHtml req then
    { status := 200, statusText := "", contentType := some "text/html",
      dateHdr := none, body := OFFLINE_HTML_BODY }
  else
    { status := 503, statusText := "Service Unavailable",
      contentType := some "text/plain", dateHdr := none, body := "Offline" }

/-- The fallback of `cacheFirstStrategy` for non-HTML requests when the
fetch threw: `new Response('Network error occurred', { status: 408 })`. -/
def netErrorResponse : Response :=
  { status := 408, statusText := "", contentType := some "text/plain",
    dateHdr := none, body := "Network error occurred" }

/-- What one strategy invocation yields: the response handed to the fetch
event (`none` models resolving with `undefined`), the state after all
writes (including those of a fired-and-forgotten background refresh, once
it settles), whether a network fetch was awaited on the critical path, and
whether a background (non-awaited) refresh was fired. -/
structure StrategyResult where
  response : Option Response
  state : SWState
  usedNetworkOnCriticalPath : Bool
  backgroundRefresh : Bool
deriving DecidableEq, Repr

/-- `cacheFirstStrategy(request)` (sw.js lines 114-148). On a cache hit the
cached response is returned; if it is stale, `fetchAndCache` is fired
without `await` first. On a miss, `await fetchAndCache`; if that throws the
catch returns `caches.match('/')` for HTML requests and a plain-text 408
otherwise. -/
def cacheFirstStrategy (req : Request) (now : Int) (network : String → Option Response)
    (st : SWState) : StrategyResult :=
  match matchCaches req.url st with
  | some cached =>
    if isStaleDate now cached.dateHdr then
      { response := some cached, state := (fetchAndCache req.url network st).2,
        usedNetworkOnCriticalPath := false, backgroundRefresh := true }
    else
      { response := some cached, state := st,
        usedNetworkOnCriticalPath := false, backgroundRefresh := false }
  | none =>
    match fetchAndCache req.url network st with
    | (some r, st2) =>
      { response := some r, state := st2,
        usedNetworkOnCriticalPath := true, backgroundRefresh := false }
    | (none, _) =>
      if acceptsHtml req then
        { response := matchCaches "/" st, state := st,
          usedNetworkOnCriticalPath := true, backgroundRefresh := false }
      else
        { response := some netErrorResponse, state := st,
          usedNetworkOnCriticalPath := true, backgroundRefresh := false }

/-- `networkFirstStrategy(request)` (sw.js lines 153-180). A settled fetch
is cached through `cacheResponse` (no status check) and returned. On a
rejected fetch: `caches.match(request)`; then, for HTML requests,
`caches.match('/')`; otherwise `offlineResponse(request)`. -/
def networkFirstStrategy (req : Request) (network : String → Option Response)
    (st : SWState) : StrategyResult :=
  match network req.url with
  | some r =>
    { response := some r, state := cacheResponse req.url r st,
      usedNetworkOnCriticalPath := true, backgroundRefresh := false }
  | none =>
    match matchCaches req.url st with
    | some cached =>
      { response := some cached, state := st,
        usedNetworkOnCriticalPath := true, backgroundRefresh := false }
    | none =>
      if acceptsHtml req then
        { response := matchCaches "/" st, state := st,
          usedNetworkOnCriticalPath := true, backgroundRefresh := false }
      else
        { response := some (offlineResponse req), state := st,
          usedNetworkOnCriticalPath := true, backgroundRefresh := false }

/-- The fetch listener's dispatch (sw.js lines 86-109): bypassed requests
get no `respondWith`. -/
def handleFetch (req : Request) (now : Int) (network : String → Option Response)
    (st : SWState) : Option StrategyResult :=
  match classifyRequest req with
  | ReqClass.bypass => none
  | ReqClass.api => some (networkFirstStrategy req network st)
  | ReqClass.document => some (networkFirstStrategy req network st)
  | ReqClass.asset => some (cacheFirstStrategy req now network st)

/-- One step of `cache.addAll`: put the fetched response for one asset. -/
def addAllStep (network : String → Option Response) (c : CacheNS) (a : String) : CacheNS :=
  match network a with
  | some r => nsPut a r c
  | none => c

/-- The writes `cache.addAll(as)` commits, in order. -/
def addAllBatch (network : String → Option Response) (as : List String) (c : CacheNS) : CacheNS :=
  as.foldl (addAllStep network) c

/-- The precondition of `cache.addAll(STATIC_ASSETS)`: every asset's fetch
settles with an ok response. -/
def installFetchesOk (network : String → Option Response) : Bool :=
  STATIC_ASSETS.all fun a =>
    match network a with
    | some r => responseOk r
    | none => false

/-- The install listener (sw.js lines 40-54):
`caches.open(STATIC_CACHE_NAME).then(cache => cache.addAll(STATIC_ASSETS))`.
`addAll` is all-or-nothing: it fetches every asset first and rejects —
leaving the namespace untouched — unless every fetch settles with an ok
response; only then does its batch commit every entry. -/
def installEvent (network : String → Option Response) (staticNS : CacheNS) : CacheNS :=
  if installFetchesOk network then addAllBatch network STATIC_ASSETS staticNS
  else staticNS

/-- Membership in the three current namespace names, as tested by the
activate listener. -/
def isCurrentCacheName (n : String) : Bool :=
  n == CACHE_NAME || n == STATIC_CACHE_NAME || n == DYNAMIC_CACHE_NAME

/-- One step of the activate cleanup: `caches.delete(n)` unless `n` is one
of the three current names. -/
def activateStep (store : List String) (n : String) : List String :=
  if isCurrentCacheName n then store else store.filter (fun m => m != n)

/-- The activate listener's cleanup (sw.js lines 59-81): for every name in
the `caches.keys()` snapshot that is none of the three current names, run
`caches.delete(name)`. The cache storage is modelled as the list of
existing namespace names. -/
def activateCleanup (names : List String) : List String :=
  names.foldl activateStep names

/-- `pagesToUpdate` of `updateCachedContent` (sw.js lines 357-367). -/
def pagesToUpdate : List String :=
  ["/", "/index.html", "/Tests_7th.html", "/Tests_8th.html", "/Tests_9th.html",
   "/Tests_1st_secondary.html", "/Tests_2nd_secondary.html",
   "/Tests_3rd_secondary.html", "/Tests_4th_secondary.html"]

/-- One iteration of `updateCachedContent`'s loop: fetch the url; on an ok
response `cache.put(url, response)` straight into the dynamic namespace; a
rejected fetch is caught and the batch continues. -/
def refreshPageStep (network : String → Option Response) (st : SWState) (url : String) : SWState :=
  match network url with
  | none => st
  | some r =>
    if responseOk r then { st with dynamicNS := nsPut url r st.dynamicNS } else st

/-- `updateCachedContent()` (sw.js lines 352-392), state effect of the
sequential per-page loop. -/
def updateCachedContent (network : String → Option Response) (st : SWState) : SWState :=
  pagesToUpdate.foldl (refreshPageStep network) st

/-- The deletion test of `cleanupOldCacheEntries`: skipped when the `date`
header is absent (falsy); an unparseable header makes the NaN comparison
false; otherwise delete when older than `MAX_AGE_MS`. -/
def shouldExpire (now : Int) (r : Response) : Bool :=
  match r.dateHdr with
  | none => false
  | some none => false
  | some (some t) => decide (MAX_AGE_MS < now - t)

/-- `cleanupOldCacheEntries()` (sw.js lines 430-448): scan the dynamic
namespace and delete every entry whose parsed `date` is older than
`MAX_AGE_MS`. -/
def cleanupOldCacheEntries (now : Int) (st : SWState) : SWState :=
  { st with dynamicNS := st.dynamicNS.filter (fun p => !shouldExpire now p.2) }

/-- The `data` object of a notification (`{url, timestamp}`); the fields are
optional because a push payload's `data` replaces the default wholesale. -/
structure ClickData where
  url : Option String
  timestamp : Option Int
deriving DecidableEq, Repr

/-- The notification shape passed to `showNotification` (title plus
options). -/
structure NotificationData where
  title : String
  body : String
  icon : String
  badge : String
  tag : String
  data : ClickData
deriving DecidableEq, Repr

/-- A parsed JSON push payload, by the notification keys it may carry; a
spread `{...base, ...data}` keeps the base value for every absent key and
replaces `data` wholesale. -/
structure PushPatch where
  title : Option String := none
  body : Option String := none
  icon : Option String := none
  badge : Option String := none
  tag : Option String := none
  data : Option ClickData := none
deriving DecidableEq, Repr

/-- What `event.data` yields in the push listener: absent, a payload whose
`.json()` parses, or one whose `.json()` throws and whose `.text()` is the
raw string. -/
inductive PushEventData where
  | noData
  | jsonData (patch : PushPatch)
  | textData (raw : String)
deriving DecidableEq, Repr

/-- The default `notificationData` of the push listener (sw.js lines
264-274). -/
def defaultNotificationData (now : Int) : NotificationData :=
  { title := "Tests Hub", body := "New tests and updates available!",
    icon := NOTIFICATION_ICON, badge := NOTIFICATION_ICON, tag := "testshub-update",
    data := { url := some "/", timestamp := some now } }

/-- `{...notificationData, ...data}`: a shallow spread merge. -/
def mergeNotificationData (base : NotificationData) (p : PushPatch) : NotificationData :=
  { title := p.title.getD base.title, body := p.body.getD base.body,
    icon := p.icon.getD base.icon, badge := p.badge.getD base.badge,
    tag := p.tag.getD base.tag, data := p.data.getD base.data }

/-- The push listener (sw.js lines 261-291): the notification it always
shows. -/
def pushHandler (now : Int) (ev : PushEventData) : NotificationData :=
  match ev with
  | PushEventData.noData => defaultNotificationData now
  | PushEventData.jsonData p => mergeNotificationData (defaultNotificationData now) p
  | PushEventData.textData raw => { defaultNotificationData now with body := raw }

/-- `event.data` of a client message. -/
structure MessageData where
  type : String
deriving DecidableEq, Repr

/-- The reply posted for `GET_VERSION`. -/
structure VersionReply where
  version : String
  cacheName : String
deriving DecidableEq, Repr

/-- The message listener (sw.js lines 412-425): whether `skipWaiting` was
called, and the reply posted on `event.ports[0]` (if any). -/
def messageHandler (msg : Option MessageData) : Bool × Option VersionReply :=
  ((match msg with
    | some m => m.type == "SKIP_WAITING"
    | none => false),
   (match msg with
    | some m =>
      if m.type = "GET_VERSION" then
        some { version := "2.0.0", cacheName := CACHE_NAME }
      else none
    | none => none))

/-! Helper lemmas about the cache model. -/

/-- Looking a key up after a put: the key just written maps to the new
response, every other key is untouched. -/
theorem nsLookup_nsPut (k u : String) (r : Response) (c : CacheNS) :
    nsLookup k (nsPut u r c) = if k = u then some r else nsLookup k c := by
  induction c with
  | nil =>
    by_cases h : k = u
    · subst h; simp [nsPut, nsLookup]
    · simp [nsPut, nsLookup, h, Ne.symm h]
  | cons p rest ih =>
    by_cases hp : p.1 = u
    · have hput : nsPut u r (p :: rest) = nsPut u r rest := by
        simp [nsPut, List.filter_cons, hp]
      rw [hput, ih]
      by_cases hk : k = u
      · simp [hk]
      · have hpk : ¬ p.1 = k := by rw [hp]; exact Ne.symm hk
        simp [nsLookup, hk, hpk]
    · have hput : nsPut u r (p :: rest) = p :: nsPut u r rest := by
        simp [nsPut, List.filter_cons, bne_iff_ne.mpr hp]
      rw [hput]
      by_cases hpk : p.1 = k
      · have hk : ¬ k = u := fun h => hp (hpk.trans h)
        simp [nsLookup, hpk, hk]
      · simp [nsLookup, hpk, ih]

/-- Membership after the activate fold: an entry survives iff it was in the
store and is not a non-current member of the iterated snapshot. -/
theorem activate_foldl_mem (snapshot : List String) (store : List String) (n : String) :
    n ∈ snapshot.foldl activateStep store ↔
      n ∈ store ∧ (n ∉ snapshot ∨ isCurrentCacheName n = true) := by
  induction snapshot generalizing store with
  | nil => simp
  | cons m rest ih =>
    rw [List.foldl_cons, ih]
    unfold activateStep
    by_cases hm : isCurrentCacheName m = true
    · rw [if_pos hm]
      by_cases hnm : n = m
      · subst hnm; simp [hm]
      · simp only [List.mem_cons]
        constructor
        · rintro ⟨hs, h⟩
          exact ⟨hs, by tauto⟩
        · rintro ⟨hs, h⟩
          exact ⟨hs, by tauto⟩
    · rw [if_neg hm]
      rw [List.mem_filter]
      by_cases hnm : n = m
      · subst hnm
        simp only [bne_self_eq_false, List.mem_cons]
        constructor
        · rintro ⟨⟨_, h⟩, _⟩; exact absurd h (by simp)
        · rintro ⟨hs, h⟩
          rcases h with h | h
          · exact absurd (Or.inl trivial) h
          · exact absurd h hm
      · have hne : (n != m) = true := bne_iff_ne.mpr hnm
        simp only [hne, and_true, List.mem_cons]
        constructor
        · rintro ⟨hs, h⟩
          exact ⟨hs, by tauto⟩
        · rintro ⟨hs, h⟩
          exact ⟨hs, by tauto⟩

/-- When every fetch of the batch settles, `addAllBatch` is the fold of
plain puts of the fetched responses. -/
theorem addAllBatch_total (network : String → Option Response) (f : String → Response)
    (as : List String) (c : CacheNS)
    (hf : ∀ a ∈ as, network a = some (f a)) :
    addAllBatch network as c = as.foldl (fun acc a => nsPut a (f a) acc) c := by
  induction as generalizing c with
  | nil => rfl
  | cons a rest ih =>
    have ha := hf a (by simp)
    have hstep : addAllStep network c a = nsPut a (f a) c := by
      unfold addAllStep; rw [ha]
    unfold addAllBatch
    rw [List.foldl_cons, List.foldl_cons, hstep]
    exact ih (nsPut a (f a) c) (fun b hb => hf b (by simp [hb]))

/-- Closed form of a fold of puts over distinct keys: the old entries whose
key is not among the batch, then the batch entries in order. -/
theorem putAll_closed (f : String → Response) (as : List String) (c : CacheNS)
    (hnd : as.Nodup) :
    as.foldl (fun acc a => nsPut a (f a) acc) c =
      c.filter (fun p => !(as.contains p.1)) ++ as.map (fun a => (a, f a)) := by
  induction as generalizing c with
  | nil => simp
  | cons a rest ih =>
    have hna : a ∉ rest := (List.nodup_cons.mp hnd).1
    have hnd2 : rest.Nodup := (List.nodup_cons.mp hnd).2
    rw [List.foldl_cons, ih (nsPut a (f a) c) hnd2]
    unfold nsPut
    rw [List.filter_append, List.filter_filter]
    have h1 : (([(a, f a)] : CacheNS).filter (fun p => !(rest.contains p.1))) = [(a, f a)] := by
      simp [List.filter_cons, hna]
    rw [h1]
    have h2 : (c.filter fun p => (!rest.contains p.1) && (p.1 != a)) =
        c.filter (fun p => !((a :: rest).contains p.1)) := by
      apply List.filter_congr
      intro p _
      by_cases hpa : p.1 = a <;>
        simp [hpa, List.contains_cons, Bool.not_or, Bool.and_comm, bne]
    rw [h2]
    simp

/-- Folding the same puts twice is the same as folding them once. -/
theorem putAll_idem (f : String → Response) (as : List String) (c : CacheNS)
    (hnd : as.Nodup) :
    as.foldl (fun acc a => nsPut a (f a) acc)
        (as.foldl (fun acc a => nsPut a (f a) acc) c) =
      as.foldl (fun acc a => nsPut a (f a) acc) c := by
  rw [putAll_closed f as c hnd, putAll_closed f as _ hnd]
  rw [List.filter_append, List.filter_filter]
  have h1 : ((as.map fun a => (a, f a)).filter fun p => !(as.contains p.1)) = [] := by
    rw [List.filter_eq_nil_iff]
    intro p hp
    obtain ⟨a, ha, rfl⟩ := List.mem_map.mp hp
    simp [ha]
  have h2 : (c.filter fun p => (!as.contains p.1) && !(as.contains p.1)) =
      c.filter (fun p => !(as.contains p.1)) := by
    apply List.filter_congr
    intro p _
    rw [Bool.and_self]
  rw [h1, h2]
  simp

/-- A fetch that rejects leaves the refresh step's state unchanged. -/
theorem refreshPageStep_none (network : String → Option Response) (st : SWState)
    (a : String) (h : network a = none) : refreshPageStep network st a = st := by
  simp [refreshPageStep, h]

/-- An ok fetched page is put into the dynamic namespace. -/
theorem refreshPageStep_some_ok (network : String → Option Response) (st : SWState)
    (a : String) (ra : Response) (h : network a = some ra) (hok : responseOk ra = true) :
    refreshPageStep network st a = { st with dynamicNS := nsPut a ra st.dynamicNS } := by
  simp [refreshPageStep, h, hok]

/-- A fetched page with a non-ok status is skipped. -/
theorem refreshPageStep_some_notok (network : String → Option Response) (st : SWState)
    (a : String) (ra : Response) (h : network a = some ra) (hok : ¬ responseOk ra = true) :
    refreshPageStep network st a = st := by
  simp [refreshPageStep, h, hok]

/-- Every entry present after `updateCachedContent`'s loop was either
already present or is an ok response the loop fetched for its url. -/
theorem refreshPages_lookup (network : String → Option Response) (pages : List String)
    (st : SWState) (k : String) (r : Response)
    (h : nsLookup k (pages.foldl (refreshPageStep network) st).dynamicNS = some r) :
    nsLookup k st.dynamicNS = some r ∨ (network k = some r ∧ responseOk r = true) := by
  induction pages generalizing st with
  | nil => exact Or.inl h
  | cons a rest ih =>
    rw [List.foldl_cons] at h
    rcases ih (refreshPageStep network st a) h with h2 | h2
    · cases hna : network a with
      | none =>
        rw [refreshPageStep_none network st a hna] at h2
        exact Or.inl h2
      | some ra =>
        by_cases hok : responseOk ra = true
        · rw [refreshPageStep_some_ok network st a ra hna hok] at h2
          simp only at h2
          rw [nsLookup_nsPut] at h2
          by_cases hk : k = a
          · rw [if_pos hk] at h2
            subst hk
            refine Or.inr ⟨?_, ?_⟩
            · rw [hna, Option.some_inj.mp h2]
            · rw [← Option.some_inj.mp h2]; exact hok
          · rw [if_neg hk] at h2
            exact Or.inl h2
        · rw [refreshPageStep_some_notok network st a ra hna hok] at h2
          exact Or.inl h2
    · exact Or.inr h2

/-- A request classified as document has an Accept header that includes
text/html. -/
theorem classify_document_accepts_html (req : Request)
    (h : classifyRequest req = ReqClass.document) : acceptsHtml req = true := by
  unfold classifyRequest at h
  split at h
  · simp at h
  split at h
  · simp at h
  split at h
  · simp at h
  split at h
  · assumption
  · simp at h

/-! Claim theorems. -/

/-- State with no cache entries at all (and no storage estimate). -/
def emptyState : SWState :=
  { staticNS := [], dynamicNS := [], hasEstimate := false,
    storageUsage := 0, storageQuota := 1 }

/-- A GET document request (Accept includes text/html). -/
def c1Request : Request :=
  { method := "GET", url := "https://tests-hub.example/news", accept := some "text/html" }

/-- C1 counterexample: a GET request classified as document, whose fetch
rejects and for which no cache entry exists at all, gets NO response from
networkFirstStrategy (the catch returns `caches.match('/')`, which resolves
`undefined` on an empty cache storage) — not the synthesized offline HTML
page. -/
theorem c1_counterexample :
    classifyRequest c1Request = ReqClass.document ∧
    (networkFirstStrategy c1Request (fun _ => none) emptyState).response = none := by
  decide

/-- C1 amended: for every GET request classified as document whose network
fetch fails and for which no matching cache entry exists,
networkFirstStrategy returns the cached entry for the root path "/" when
one exists and otherwise no response at all; the synthesized offline HTML
page is never returned for document requests (offlineResponse is reached
only on the non-HTML branch). -/
theorem c1_amended_document_shell_fallback (req : Request)
    (network : String → Option Response) (st : SWState)
    (hclass : classifyRequest req = ReqClass.document)
    (hnet : network req.url = none)
    (hmiss : matchCaches req.url st = none) :
    networkFirstStrategy req network st =
      { response := matchCaches "/" st, state := st,
        usedNetworkOnCriticalPath := true, backgroundRefresh := false } := by
  have hhtml := classify_document_accepts_html req hclass
  simp [networkFirstStrategy, hnet, hmiss, hhtml]

/-- The shell entry used by the C1 witness. -/
def c1ShellResponse : Response :=
  { status := 200, statusText := "OK", contentType := some "text/html",
    dateHdr := some (some 0), body := "shell" }

/-- State whose only entry is the root shell page. -/
def c1ShellState : SWState :=
  { staticNS := [("/", c1ShellResponse)], dynamicNS := [], hasEstimate := false,
    storageUsage := 0, storageQuota := 1 }

/-- C1 witness: the amended theorem at a concrete document request, failed
network and a state holding only the shell entry. -/
theorem c1_witness :
    networkFirstStrategy c1Request (fun _ => none) c1ShellState =
      { response := matchCaches "/" c1ShellState, state := c1ShellState,
        usedNetworkOnCriticalPath := true, backgroundRefresh := false } :=
  c1_amended_document_shell_fallback c1Request (fun _ => none) c1ShellState
    (by decide) rfl (by decide)

/-- C3 counterexample: starting from a cache storage holding only a
previous version's namespace, the activate cleanup ends with NO namespaces
— in particular the current umbrella namespace is absent, so enumeration
does not yield exactly the three current names. -/
theorem c3_counterexample :
    activateCleanup ["tests-hub-static-v2.1.6"] = [] ∧
    (activateCleanup ["tests-hub-static-v2.1.6"]).contains CACHE_NAME = false := by
  decide

/-- C3 amended: after the activate cleanup, the surviving namespaces are
exactly the pre-existing ones whose name is among the three current names
(in particular no namespace bearing a prior version tag remains); the
handler only deletes, so current namespaces that did not already exist are
not created. -/
theorem c3_amended_activation_survivors (names : List String) (n : String) :
    n ∈ activateCleanup names ↔ n ∈ names ∧ isCurrentCacheName n = true := by
  unfold activateCleanup
  rw [activate_foldl_mem]
  constructor
  · rintro ⟨hin, h⟩
    exact ⟨hin, h.resolve_left (fun h2 => absurd hin h2)⟩
  · rintro ⟨hin, hcur⟩
    exact ⟨hin, Or.inr hcur⟩

/-- C4: whenever cacheResponse writes while the storage estimate reports
utilization above 90% and the dynamic namespace is non-empty, exactly the
first-inserted entry is deleted (the remainder is kept) before the new
entry is written, and the write succeeds. -/
theorem c4_quota_evicts_first_inserted (st : SWState) (k0 : String) (r0 : Response)
    (rest : CacheNS) (k : String) (r : Response)
    (hest : st.hasEstimate = true)
    (hq : st.storageQuota * 9 < st.storageUsage * 10)
    (hdyn : st.dynamicNS = (k0, r0) :: rest)
    (hk0 : ∀ p ∈ rest, p.1 ≠ k0) :
    (cacheResponse k r st).dynamicNS = nsPut k r rest ∧
    nsLookup k (cacheResponse k r st).dynamicNS = some r := by
  have hqp : quotaPressure st = true := by
    unfold quotaPressure
    rw [hest]
    simp [hq]
  have hdel : nsDelete k0 ((k0, r0) :: rest) = rest := by
    unfold nsDelete
    rw [List.filter_cons]
    simp only [bne_self_eq_false, if_false]
    exact List.filter_eq_self.mpr (fun p hp => bne_iff_ne.mpr (hk0 p hp))
  have hmain : (cacheResponse k r st).dynamicNS = nsPut k r rest := by
    unfold cacheResponse
    rw [hqp]
    simp only [if_true, hdyn, hdel]
  refine ⟨hmain, ?_⟩
  rw [hmain, nsLookup_nsPut, if_pos rfl]

/-- Dynamic entry evicted in the C4 witness. -/
def c4OldResponse : Response :=
  { status := 200, statusText := "", contentType := some "text/html",
    dateHdr := some (some 0), body := "old-dynamic" }

/-- Response written in the C4 witness. -/
def c4NewResponse : Response :=
  { status := 200, statusText := "", contentType := some "text/html",
    dateHdr := some (some 1000), body := "new-dynamic" }

/-- State under quota pressure (usage 91 of quota 100) with one dynamic
entry. -/
def c4State : SWState :=
  { staticNS := [], dynamicNS := [("/old.html", c4OldResponse)], hasEstimate := true,
    storageUsage := 91, storageQuota := 100 }

/-- C4 witness: the theorem at a concrete over-quota state with one prior
entry. -/
theorem c4_witness :
    (cacheResponse "/new.html" c4NewResponse c4State).dynamicNS = nsPut "/new.html" c4NewResponse [] ∧
    nsLookup "/new.html" (cacheResponse "/new.html" c4NewResponse c4State).dynamicNS = some c4NewResponse :=
  c4_quota_evicts_first_inserted c4State "/old.html" c4OldResponse [] "/new.html" c4NewResponse
    rfl (by decide) rfl (by decide)

/-- C5: a GET request classified as asset with a cached entry whose stored
capture time is at most 7 days old is answered with the stored response
unchanged, with no network fetch on the critical path, no background
refresh, and no state change. -/
theorem c5_fresh_asset_served_from_cache (req : Request) (now : Int)
    (network : String → Option Response) (st : SWState) (cached : Response) (t : Int)
    (hclass : classifyRequest req = ReqClass.asset)
    (hhit : matchCaches req.url st = some cached)
    (hdate : cached.dateHdr = some (some t))
    (hfresh : now - t ≤ MAX_AGE_MS) :
    cacheFirstStrategy req now network st =
      { response := some cached, state := st,
        usedNetworkOnCriticalPath := false, backgroundRefresh := false } := by
  have hstale : isStaleDate now cached.dateHdr = false := by
    rw [hdate]
    unfold isStaleDate
    simp [not_lt.mpr hfresh]
  simp [cacheFirstStrategy, hhit, hstale]

/-- Fresh cached asset of the C5 witness (captured at time 0). -/
def c5AssetResponse : Response :=
  { status := 200, statusText := "OK", contentType := some "image/png",
    dateHdr := some (some 0), body := "logo-bytes" }

/-- State holding the fresh asset in the static namespace. -/
def c5State : SWState :=
  { staticNS := [("/logo.png", c5AssetResponse)], dynamicNS := [], hasEstimate := false,
    storageUsage := 0, storageQuota := 1 }

/-- A GET asset request (no Accept header, no /api/ segment). -/
def c5Request : Request :=
  { method := "GET", url := "/logo.png", accept := none }

/-- C5 witness: the theorem at a concrete fresh asset, 6 days after
capture. -/
theorem c5_witness :
    cacheFirstStrategy c5Request 518400000 (fun _ => none) c5State =
      { response := some c5AssetResponse, state := c5State,
        usedNetworkOnCriticalPath := false, backgroundRefresh := false } :=
  c5_fresh_asset_served_from_cache c5Request 518400000 (fun _ => none) c5State
    c5AssetResponse 0 (by decide) (by decide) rfl (by decide)

/-- The key just written through `cacheResponse` maps to the new response. -/
theorem nsLookup_cacheResponse_self (k : String) (r : Response) (st : SWState) :
    nsLookup k (cacheResponse k r st).dynamicNS = some r := by
  simp [cacheResponse, nsLookup_nsPut]

/-- The request that receives a 404 in the C2 counterexample. -/
def c2Request : Request :=
  { method := "GET", url := "/missing.html", accept := some "text/html" }

/-- A settled 404 response. -/
def c2Resp404 : Response :=
  { status := 404, statusText := "Not Found", contentType := some "text/html",
    dateHdr := none, body := "not found" }

/-- C2 counterexample: networkFirstStrategy write-through persists a 404
response into the dynamic namespace — a cache write stores a non-2xx
status. -/
theorem c2_counterexample :
    (networkFirstStrategy c2Request (fun _ => some c2Resp404) emptyState).state.dynamicNS
      = [("/missing.html", c2Resp404)] ∧
    responseOk c2Resp404 = false := by
  decide

/-- C2 amended: fetchAndCache persists only responses with status exactly
200 and updateCachedContent persists only ok (2xx) responses, but
networkFirstStrategy's write-through runs cacheResponse on every settled
network response regardless of status, so non-2xx responses are persisted
there. -/
theorem c2_amended_write_status_policy :
    (∀ (url : String) (network : String → Option Response) (st : SWState) (r : Response),
      network url = some r → r.status ≠ 200 → fetchAndCache url network st = (some r, st)) ∧
    (∀ (network : String → Option Response) (st : SWState) (k : String) (r : Response),
      nsLookup k (updateCachedContent network st).dynamicNS = some r →
      nsLookup k st.dynamicNS = some r ∨ (network k = some r ∧ responseOk r = true)) ∧
    (∀ (req : Request) (network : String → Option Response) (st : SWState) (r : Response),
      network req.url = some r →
      networkFirstStrategy req network st =
        { response := some r, state := cacheResponse req.url r st,
          usedNetworkOnCriticalPath := true, backgroundRefresh := false }) := by
  refine ⟨?_, ?_, ?_⟩
  · intro url network st r hnet h200
    simp [fetchAndCache, hnet, h200]
  · intro network st k r h
    exact refreshPages_lookup network pagesToUpdate st k r h
  · intro req network st r hnet
    simp [networkFirstStrategy, hnet]

/-- Stale entry sitting in the static namespace for the C6 counterexample. -/
def c6StaleStatic : Response :=
  { status := 200, statusText := "OK", contentType := some "application/json",
    dateHdr := some (some 0), body := "old-manifest" }

/-- Fresh response the network returns during the C6 background refresh. -/
def c6FreshNetwork : Response :=
  { status := 200, statusText := "OK", contentType := some "application/json",
    dateHdr := some (some 700000000000), body := "new-manifest" }

/-- State whose only entry is the stale static one. -/
def c6State : SWState :=
  { staticNS := [("/manifest.json", c6StaleStatic)], dynamicNS := [], hasEstimate := false,
    storageUsage := 0, storageQuota := 1 }

/-- The asset request matching the stale static entry. -/
def c6Request : Request :=
  { method := "GET", url := "/manifest.json", accept := none }

/-- C6 counterexample: a stale entry in the static namespace is served and
a background refresh fires and succeeds (status 200), yet the matched
entry is NOT overwritten — the refreshed copy lands in the dynamic
namespace, the static entry keeps the old body, and a later lookup still
returns the old response. -/
theorem c6_counterexample :
    (cacheFirstStrategy c6Request 700000000000 (fun _ => some c6FreshNetwork) c6State).backgroundRefresh
      = true ∧
    (cacheFirstStrategy c6Request 700000000000 (fun _ => some c6FreshNetwork) c6State).state.staticNS
      = [("/manifest.json", c6StaleStatic)] ∧
    matchCaches "/manifest.json"
        (cacheFirstStrategy c6Request 700000000000 (fun _ => some c6FreshNetwork) c6State).state
      = some c6StaleStatic ∧
    c6StaleStatic.body = "old-manifest" ∧
    c6FreshNetwork.body = "new-manifest" := by
  decide

/-- C6 amended: a stale cached asset is returned immediately with no
network on the critical path and a background refresh fires; when the
refresh settles with status 200, the fresh response is written into the
DYNAMIC namespace (an entry residing in the static namespace is left in
place); when it settles non-200 or rejects, the caches are unchanged and
no error reaches the caller. -/
theorem c6_amended_stale_revalidate (req : Request) (now : Int)
    (network : String → Option Response) (st : SWState) (cached : Response)
    (hhit : matchCaches req.url st = some cached)
    (hstale : isStaleDate now cached.dateHdr = true) :
    (cacheFirstStrategy req now network st).response = some cached ∧
    (cacheFirstStrategy req now network st).usedNetworkOnCriticalPath = false ∧
    (cacheFirstStrategy req now network st).backgroundRefresh = true ∧
    (∀ r : Response, network req.url = some r → r.status = 200 →
      (cacheFirstStrategy req now network st).state = cacheResponse req.url r st ∧
      nsLookup req.url (cacheFirstStrategy req now network st).state.dynamicNS = some r) ∧
    (∀ r : Response, network req.url = some r → ¬ r.status = 200 →
      (cacheFirstStrategy req now network st).state = st) ∧
    (network req.url = none → (cacheFirstStrategy req now network st).state = st) := by
  have hmain : cacheFirstStrategy req now network st =
      { response := some cached, state := (fetchAndCache req.url network st).2,
        usedNetworkOnCriticalPath := false, backgroundRefresh := true } := by
    simp [cacheFirstStrategy, hhit, hstale]
  rw [hmain]
  refine ⟨rfl, rfl, rfl, ?_, ?_, ?_⟩
  · intro r hnet h200
    have hfc : fetchAndCache req.url network st = (some r, cacheResponse req.url r st) := by
      simp [fetchAndCache, hnet, h200]
    rw [hfc]
    exact ⟨rfl, nsLookup_cacheResponse_self req.url r st⟩
  · intro r hnet h200
    simp [fetchAndCache, hnet, h200]
  · intro hnet
    simp [fetchAndCache, hnet]

/-- Stale entry in the dynamic namespace for the C6 witness. -/
def c6DynStale : Response :=
  { status := 200, statusText := "OK", contentType := some "text/css",
    dateHdr := some (some 0), body := "old-style" }

/-- State holding the stale dynamic entry. -/
def c6DynState : SWState :=
  { staticNS := [], dynamicNS := [("/style.css", c6DynStale)], hasEstimate := false,
    storageUsage := 0, storageQuota := 1 }

/-- The asset request matching the stale dynamic entry. -/
def c6WitRequest : Request :=
  { method := "GET", url := "/style.css", accept := none }

/-- C6 witness: the amended theorem at a concrete stale dynamic entry with
a succeeding refresh. -/
theorem c6_witness :
    (cacheFirstStrategy c6WitRequest 700000000000 (fun _ => some c6FreshNetwork) c6DynState).response
      = some c6DynStale ∧
    (cacheFirstStrategy c6WitRequest 700000000000 (fun _ => some c6FreshNetwork) c6DynState).usedNetworkOnCriticalPath
      = false ∧
    (cacheFirstStrategy c6WitRequest 700000000000 (fun _ => some c6FreshNetwork) c6DynState).backgroundRefresh
      = true ∧
    (∀ r : Response, (fun _ => some c6FreshNetwork) c6WitRequest.url = some r → r.status = 200 →
      (cacheFirstStrategy c6WitRequest 700000000000 (fun _ => some c6FreshNetwork) c6DynState).state
          = cacheResponse c6WitRequest.url r c6DynState ∧
      nsLookup c6WitRequest.url
          (cacheFirstStrategy c6WitRequest 700000000000 (fun _ => some c6FreshNetwork) c6DynState).state.dynamicNS
        = some r) ∧
    (∀ r : Response, (fun _ => some c6FreshNetwork) c6WitRequest.url = some r → ¬ r.status = 200 →
      (cacheFirstStrategy c6WitRequest 700000000000 (fun _ => some c6FreshNetwork) c6DynState).state
        = c6DynState) ∧
    ((fun _ => some c6FreshNetwork) c6WitRequest.url = none →
      (cacheFirstStrategy c6WitRequest 700000000000 (fun _ => some c6FreshNetwork) c6DynState).state
        = c6DynState) :=
  c6_amended_stale_revalidate c6WitRequest 700000000000 (fun _ => some c6FreshNetwork)
    c6DynState c6DynStale (by decide) (by decide)

/-- C7: a push whose payload parses as the JSON object with title X and
body Y yields a notification with title X, body Y and the default icon,
badge, tag and click data; a payload that is not JSON yields a
notification whose body is the raw text with every other field at its
default — in both cases (and with no payload at all, the last conjunct) a
notification is produced. -/
theorem c7_push_notification_shapes (now : Int) (raw : String) :
    pushHandler now (PushEventData.jsonData { title := some "X", body := some "Y" }) =
      { title := "X", body := "Y", icon := NOTIFICATION_ICON, badge := NOTIFICATION_ICON,
        tag := "testshub-update", data := { url := some "/", timestamp := some now } } ∧
    (pushHandler now (PushEventData.textData raw)).body = raw ∧
    (pushHandler now (PushEventData.textData raw)).title = "Tests Hub" ∧
    (pushHandler now (PushEventData.textData raw)).icon = NOTIFICATION_ICON ∧
    (pushHandler now (PushEventData.textData raw)).badge = NOTIFICATION_ICON ∧
    (pushHandler now (PushEventData.textData raw)).tag = "testshub-update" ∧
    pushHandler now PushEventData.noData = defaultNotificationData now :=
  ⟨rfl, rfl, rfl, rfl, rfl, rfl, rfl⟩

/-- C8: the GET_VERSION reply carries the current umbrella namespace name
as cacheName, but its version field is the literal "2.0.0" — not the
version tag v2.1.7 the worker embeds in its namespace names and file
header, so the reply's version is NOT the current version identifier. -/
theorem c8_get_version_stale_version :
    messageHandler (some { type := "GET_VERSION" }) =
      (false, some { version := "2.0.0", cacheName := CACHE_NAME }) ∧
    CACHE_NAME = "tests-hub-" ++ SW_VERSION ∧
    (("v" ++ "2.0.0") == SW_VERSION) = false := by
  decide

/-- C9: running the install step twice with the same network (the same
mapping from asset urls to fetch outcomes) leaves the static namespace
exactly as one run does, for every starting namespace. -/
theorem c9_install_idempotent (network : String → Option Response) (c : CacheNS) :
    installEvent network (installEvent network c) = installEvent network c := by
  by_cases hg : installFetchesOk network = true
  · have hsome : ∀ a ∈ STATIC_ASSETS, network a = some ((network a).getD netErrorResponse) := by
      intro a ha
      have hall := List.all_eq_true.mp hg a ha
      cases hna : network a with
      | none => rw [hna] at hall; simp at hall
      | some r => simp [hna]
    simp only [installEvent, if_pos hg]
    rw [addAllBatch_total network _ STATIC_ASSETS c hsome,
        addAllBatch_total network _ STATIC_ASSETS _ hsome]
    exact putAll_idem _ STATIC_ASSETS c (by decide)
  · simp only [installEvent, if_neg hg]

/-- A cached response with no `date` header at all. -/
def c10NoDateResponse : Response :=
  { status := 200, statusText := "OK", contentType := some "image/png",
    dateHdr := none, body := "img-bytes" }

/-- State holding only the header-less entry in the dynamic namespace. -/
def c10State : SWState :=
  { staticNS := [], dynamicNS := [("/img.png", c10NoDateResponse)], hasEstimate := false,
    storageUsage := 0, storageQuota := 1 }

/-- The asset request matching the header-less entry. -/
def c10Request : Request :=
  { method := "GET", url := "/img.png", accept := none }

/-- C10 counterexample: an entry whose response lacks the `date` header IS
treated as stale by cacheFirstStrategy (`new Date(null)` is the epoch), so
a background refresh fires — contradicting "never treats the entry as
stale ... without triggering a background refresh regardless of the
current time". -/
theorem c10_counterexample :
    (cacheFirstStrategy c10Request 700000000000 (fun _ => none) c10State).backgroundRefresh
      = true := by
  decide

/-- C10 amended: an entry whose `date` header is present but unparseable is
never stale — cacheFirstStrategy returns it with no background refresh
whatever the time; an entry with NO `date` header is still returned, but
is dated at the Unix epoch, so a background refresh fires exactly when
`now - 0` exceeds the max age; cleanupOldCacheEntries deletes neither kind
of entry. -/
theorem c10_amended_missing_date_semantics (req : Request) (now : Int)
    (network : String → Option Response) (st : SWState) (cached : Response)
    (hhit : matchCaches req.url st = some cached) :
    (cached.dateHdr = some none →
      cacheFirstStrategy req now network st =
        { response := some cached, state := st,
          usedNetworkOnCriticalPath := false, backgroundRefresh := false }) ∧
    (cached.dateHdr = none →
      (cacheFirstStrategy req now network st).response = some cached ∧
      (cacheFirstStrategy req now network st).backgroundRefresh
        = decide (MAX_AGE_MS < now - 0)) ∧
    (∀ (k : String) (rr : Response), (k, rr) ∈ st.dynamicNS →
      (rr.dateHdr = none ∨ rr.dateHdr = some none) →
      (k, rr) ∈ (cleanupOldCacheEntries now st).dynamicNS) := by
  refine ⟨?_, ?_, ?_⟩
  · intro hd
    have hstale : isStaleDate now cached.dateHdr = false := by
      rw [hd]; rfl
    simp [cacheFirstStrategy, hhit, hstale]
  · intro hd
    have hstale : isStaleDate now cached.dateHdr = decide (MAX_AGE_MS < now - 0) := by
      rw [hd]; rfl
    cases hdec : decide (MAX_AGE_MS < now - 0) with
    | true =>
      rw [hdec] at hstale
      simp [cacheFirstStrategy, hhit, hstale, hdec]
    | false =>
      rw [hdec] at hstale
      simp [cacheFirstStrategy, hhit, hstale, hdec]
  · intro k rr hmem hdr
    have hexp : shouldExpire now rr = false := by
      unfold shouldExpire
      rcases hdr with h | h <;> rw [h]
    show (k, rr) ∈ st.dynamicNS.filter (fun p => !shouldExpire now p.2)
    rw [List.mem_filter]
    exact ⟨hmem, by simp [hexp]⟩

/-- A cached response whose `date` header is present but unparseable. -/
def c10BadDateResponse : Response :=
  { status := 200, statusText := "OK", contentType := some "text/css",
    dateHdr := some none, body := "css-bytes" }

/-- State holding an unparseable-date entry and a header-less entry. -/
def c10WitState : SWState :=
  { staticNS := [],
    dynamicNS := [("/bad.css", c10BadDateResponse), ("/img.png", c10NoDateResponse)],
    hasEstimate := false, storageUsage := 0, storageQuota := 1 }

/-- The asset request matching the unparseable-date entry. -/
def c10WitRequest : Request :=
  { method := "GET", url := "/bad.css", accept := none }

/-- C10 witness: the amended theorem at the concrete unparseable-date
entry. -/
theorem c10_witness :
    (c10BadDateResponse.dateHdr = some none →
      cacheFirstStrategy c10WitRequest 700000000000 (fun _ => none) c10WitState =
        { response := some c10BadDateResponse, state := c10WitState,
          usedNetworkOnCriticalPath := false, backgroundRefresh := false }) ∧
    (c10BadDateResponse.dateHdr = none →
      (cacheFirstStrategy c10WitRequest 700000000000 (fun _ => none) c10WitState).response
        = some c10BadDateResponse ∧
      (cacheFirstStrategy c10WitRequest 700000000000 (fun _ => none) c10WitState).backgroundRefresh
        = decide (MAX_AGE_MS < 700000000000 - 0)) ∧
    (∀ (k : String) (rr : Response), (k, rr) ∈ c10WitState.dynamicNS →
      (rr.dateHdr = none ∨ rr.dateHdr = some none) →
      (k, rr) ∈ (cleanupOldCacheEntries 700000000000 c10WitState).dynamicNS) :=
  c10_amended_missing_date_semantics c10WitRequest 700000000000 (fun _ => none)
    c10WitState c10BadDateResponse (by decide)
